import Mathlib

/-!
Verification of the FusionTranslator provider-adapter layer.

Rust strings are modelled as `List Char` (abbreviated `Str`); byte-level
operations of the source (`str::len`, byte slicing, hashing) go through an
explicit UTF-8 encoder producing `List Nat` bytes.  Fallible code returns
`Except TranslatorError`; code that can panic returns `RunResult`.
-/

set_option maxRecDepth 40000

abbrev Str := List Char

/-- UTF-8 encoding of a single character (standard 1-4 byte encoding). -/
def utf8EncodeChar (c : Char) : List Nat :=
  let n := c.toNat
  if n < 128 then [n]
  else if n < 2048 then [192 + n / 64, 128 + n % 64]
  else if n < 65536 then [224 + n / 4096, 128 + n / 64 % 64, 128 + n % 64]
  else [240 + n / 262144, 128 + n / 4096 % 64, 128 + n / 64 % 64, 128 + n % 64]

/-- UTF-8 bytes of a string, as the Rust source sees them via `as_bytes`. -/
def utf8 (s : Str) : List Nat :=
  (s.map utf8EncodeChar).flatten

/-- Rust `str::len`: the number of UTF-8 BYTES of the string (not characters). -/
def rustLen (s : Str) : Nat :=
  (utf8 s).length

/- ### 32-bit word helpers over Nat -/

def w32 (n : Nat) : Nat := n % 4294967296

def wadd (a b : Nat) : Nat := w32 (a + b)

def wnot (a : Nat) : Nat := a ^^^ 4294967295

def rotl32 (x n : Nat) : Nat := w32 ((x <<< n) ||| (x >>> (32 - n)))

def rotr32 (x n : Nat) : Nat := w32 ((x >>> n) ||| (x <<< (32 - n)))

/-- Little-endian byte decomposition, 4 bytes. -/
def leBytes4 (n : Nat) : List Nat :=
  [n % 256, n / 256 % 256, n / 65536 % 256, n / 16777216 % 256]

/-- Little-endian byte decomposition, 8 bytes. -/
def leBytes8 (n : Nat) : List Nat :=
  (List.range 8).map (fun i => n / 256 ^ i % 256)

/-- Big-endian byte decomposition, 4 bytes. -/
def beBytes4 (n : Nat) : List Nat :=
  [n / 16777216 % 256, n / 65536 % 256, n / 256 % 256, n % 256]

/-- Big-endian byte decomposition, 8 bytes. -/
def beBytes8 (n : Nat) : List Nat :=
  (List.range 8).map (fun i => n / 256 ^ (7 - i) % 256)

/-- Split a byte list into 64-byte chunks (fuel-based structural recursion). -/
def chunksAux : Nat → List Nat → List (List Nat)
  | _, [] => []
  | 0, l => [l]
  | fuel + 1, l => l.take 64 :: chunksAux fuel (l.drop 64)

def chunks64 (l : List Nat) : List (List Nat) :=
  chunksAux l.length l

def hexDigit (n : Nat) : Char :=
  if n < 10 then Char.ofNat (48 + n) else Char.ofNat (87 + n)

def byteHex (b : Nat) : List Char :=
  [hexDigit (b / 16), hexDigit (b % 16)]

/-- Lowercase hexadecimal rendering of a byte sequence (`hex::encode`, `{:x}`). -/
def bytesToHex (bs : List Nat) : Str :=
  (bs.map byteHex).flatten

/- ### MD5 (RFC 1321), consumed by the Baidu signing protocol -/

def md5K : List Nat :=
  [3614090360, 3905402710, 606105819, 3250441966, 4118548399, 1200080426,
   2821735955, 4249261313, 1770035416, 2336552879, 4294925233, 2304563134,
   1804603682, 4254626195, 2792965006, 1236535329, 4129170786, 3225465664,
   643717713, 3921069994, 3593408605, 38016083, 3634488961, 3889429448,
   568446438, 3275163606, 4107603335, 1163531501, 2850285829, 4243563512,
   1735328473, 2368359562, 4294588738, 2272392833, 1839030562, 4259657740,
   2763975236, 1272893353, 4139469664, 3200236656, 681279174, 3936430074,
   3572445317, 76029189, 3654602809, 3873151461, 530742520, 3299628645,
   4096336452, 1126891415, 2878612391, 4237533241, 1700485571, 2399980690,
   4293915773, 2240044497, 1873313359, 4264355552, 2734768916, 1309151649,
   4149444226, 3174756917, 718787259, 3951481745]

def md5S : List Nat :=
  [7, 12, 17, 22, 7, 12, 17, 22, 7, 12, 17, 22, 7, 12, 17, 22,
   5, 9, 14, 20, 5, 9, 14, 20, 5, 9, 14, 20, 5, 9, 14, 20,
   4, 11, 16, 23, 4, 11, 16, 23, 4, 11, 16, 23, 4, 11, 16, 23,
   6, 10, 15, 21, 6, 10, 15, 21, 6, 10, 15, 21, 6, 10, 15, 21]

def md5F (i x y z : Nat) : Nat :=
  if i < 16 then (x &&& y) ||| (wnot x &&& z)
  else if i < 32 then (z &&& x) ||| (wnot z &&& y)
  else if i < 48 then x ^^^ y ^^^ z
  else y ^^^ (x ||| wnot z)

def md5G (i : Nat) : Nat :=
  if i < 16 then i
  else if i < 32 then (5 * i + 1) % 16
  else if i < 48 then (3 * i + 5) % 16
  else (7 * i) % 16

/-- MD5 padding: 0x80, zeros to 56 mod 64, then the bit length little-endian. -/
def md5Pad (msg : List Nat) : List Nat :=
  msg ++ 128 :: List.replicate ((119 - msg.length % 64) % 64) 0
      ++ leBytes8 (8 * msg.length)

/-- Little-endian 32-bit word `j` of a 64-byte chunk. -/
def leWord (c : List Nat) (j : Nat) : Nat :=
  c.getD (4 * j) 0 + 256 * c.getD (4 * j + 1) 0 + 65536 * c.getD (4 * j + 2) 0
    + 16777216 * c.getD (4 * j + 3) 0

def md5Step (c : List Nat) (t : Nat × Nat × Nat × Nat) (i : Nat) :
    Nat × Nat × Nat × Nat :=
  match t with
  | (a, b, cc, d) =>
    let f := wadd (wadd (wadd a (md5F i b cc d)) (md5K.getD i 0))
      (leWord c (md5G i))
    (d, wadd b (rotl32 f (md5S.getD i 0)), b, cc)

def md5Chunk (st : Nat × Nat × Nat × Nat) (c : List Nat) :
    Nat × Nat × Nat × Nat :=
  match (List.range 64).foldl (md5Step c) st, st with
  | (a, b, cc, d), (a0, b0, c0, d0) =>
    (wadd a0 a, wadd b0 b, wadd c0 cc, wadd d0 d)

/-- MD5 digest (16 bytes) of a byte sequence. -/
def md5Bytes (msg : List Nat) : List Nat :=
  match (chunks64 (md5Pad msg)).foldl md5Chunk
      (1732584193, 4023233417, 2562383102, 271733878) with
  | (a, b, c, d) => leBytes4 a ++ leBytes4 b ++ leBytes4 c ++ leBytes4 d

/-- Lowercase-hex MD5, as printed by the source's `format!("{:x}", md5::compute data)`. -/
def md5Hex (msg : List Nat) : Str :=
  bytesToHex (md5Bytes msg)

/- ### SHA-256 (FIPS 180-4), consumed by the Youdao signing protocol -/

def sha256K : List Nat :=
  [1116352408, 1899447441, 3049323471, 3921009573, 961987163, 1508970993,
   2453635748, 2870763221, 3624381080, 310598401, 607225278, 1426881987,
   1925078388, 2162078206, 2614888103, 3248222580, 3835390401, 4022224774,
   264347078, 604807628, 770255983, 1249150122, 1555081692, 1996064986,
   2554220882, 2821834349, 2952996808, 3210313671, 3336571891, 3584528711,
   113926993, 338241895, 666307205, 773529912, 1294757372, 1396182291,
   1695183700, 1986661051, 2177026350, 2456956037, 2730485921, 2820302411,
   3259730800, 3345764771, 3516065817, 3600352804, 4094571909, 275423344,
   430227734, 506948616, 659060556, 883997877, 958139571, 1322822218,
   1537002063, 1747873779, 1955562222, 2024104815, 2227730452, 2361852424,
   2428436474, 2756734187, 3204031479, 3329325298]

/-- SHA-256 padding: 0x80, zeros to 56 mod 64, then the bit length big-endian. -/
def sha256Pad (msg : List Nat) : List Nat :=
  msg ++ 128 :: List.replicate ((119 - msg.length % 64) % 64) 0
      ++ beBytes8 (8 * msg.length)

/-- Big-endian 32-bit word `j` of a 64-byte chunk. -/
def beWord (c : List Nat) (j : Nat) : Nat :=
  16777216 * c.getD (4 * j) 0 + 65536 * c.getD (4 * j + 1) 0
    + 256 * c.getD (4 * j + 2) 0 + c.getD (4 * j + 3) 0

def sha256ScheduleStep (w : List Nat) (i : Nat) : List Nat :=
  let s0 := rotr32 (w.getD (i - 15) 0) 7 ^^^ rotr32 (w.getD (i - 15) 0) 18
    ^^^ (w.getD (i - 15) 0 >>> 3)
  let s1 := rotr32 (w.getD (i - 2) 0) 17 ^^^ rotr32 (w.getD (i - 2) 0) 19
    ^^^ (w.getD (i - 2) 0 >>> 10)
  w ++ [wadd (wadd (w.getD (i - 16) 0) s0) (wadd (w.getD (i - 7) 0) s1)]

def sha256Schedule (c : List Nat) : List Nat :=
  (List.range' 16 48).foldl sha256ScheduleStep ((List.range 16).map (beWord c))

abbrev Sha256State := Nat × Nat × Nat × Nat × Nat × Nat × Nat × Nat

def sha256Compress (w : List Nat) (t : Sha256State) (i : Nat) : Sha256State :=
  match t with
  | (a, b, c, d, e, f, g, h) =>
    let s1 := rotr32 e 6 ^^^ rotr32 e 11 ^^^ rotr32 e 25
    let ch := (e &&& f) ^^^ (wnot e &&& g)
    let temp1 := wadd (wadd (wadd h s1) (wadd ch (sha256K.getD i 0)))
      (w.getD i 0)
    let s0 := rotr32 a 2 ^^^ rotr32 a 13 ^^^ rotr32 a 22
    let maj := (a &&& b) ^^^ (a &&& c) ^^^ (b &&& c)
    let temp2 := wadd s0 maj
    (wadd temp1 temp2, a, b, c, wadd d temp1, e, f, g)

def sha256ChunkStep (st : Sha256State) (c : List Nat) : Sha256State :=
  let w := sha256Schedule c
  match (List.range 64).foldl (sha256Compress w) st, st with
  | (a, b, cc, d, e, f, g, h), (a0, b0, c0, d0, e0, f0, g0, h0) =>
    (wadd a0 a, wadd b0 b, wadd c0 cc, wadd d0 d,
     wadd e0 e, wadd f0 f, wadd g0 g, wadd h0 h)

/-- SHA-256 digest (32 bytes) of a byte sequence. -/
def sha256Bytes (msg : List Nat) : List Nat :=
  match (chunks64 (sha256Pad msg)).foldl sha256ChunkStep
      (1779033703, 3144134277, 1013904242, 2773480762,
       1359893119, 2600822924, 528734635, 1541459225) with
  | (a, b, c, d, e, f, g, h) =>
    beBytes4 a ++ beBytes4 b ++ beBytes4 c ++ beBytes4 d
      ++ beBytes4 e ++ beBytes4 f ++ beBytes4 g ++ beBytes4 h

def sha256Hex (msg : List Nat) : Str :=
  bytesToHex (sha256Bytes msg)

/- ### Rust string joining and splitting -/

/-- Rust `Vec<String>::join(sep)`: empty vec gives the empty string. -/
def rustJoin (sep : Str) : List Str → Str
  | [] => []
  | [x] => x
  | x :: y :: t => x ++ sep ++ rustJoin sep (y :: t)

/-- Fuel-based engine for `str::split`: leftmost, non-overlapping matches of a
non-empty separator.  `fuel` bounds the recursion; it is irrelevant once it is
at least the length of the input (`splitOnAux_fuel`). -/
def splitOnAux (sep : Str) : Nat → Str → List Str
  | _, [] => [[]]
  | 0, s => [s]
  | fuel + 1, c :: rest =>
    if sep.isPrefixOf (c :: rest) then
      [] :: splitOnAux sep fuel (rest.drop (sep.length - 1))
    else
      match splitOnAux sep fuel rest with
      | [] => [[c]]
      | t :: ts => (c :: t) :: ts

/-- Rust `str::split(sep)` collected to a vector, for a non-empty separator
(the source splits on `'\n'`, `"/n"` and `"_._._"`). -/
def splitOnSeq (sep s : Str) : List Str :=
  splitOnAux sep s.length s

/- ### Data model (`async_translator.rs`, `translator_error.rs`) -/

namespace FT

/-- Modelled from the spec: `LanguageCode` is a closed enumeration of human
languages ("Chinese, English, Japanese, …").  The concrete enum and its
per-provider mapping tables are produced by the external `lang_generator`
macro, whose code is not part of this repository's sources; the mapping
tables themselves appear below only as function parameters
`Language → Option Str`. -/
inductive Language
  | Chinese
  | English
  | Japanese
  | French
  | Russian
deriving DecidableEq

/-- `ApiError` of `translator_error.rs`: provider-specific error details. -/
inductive ApiError
  | Baidu (code : Str) (message : Str)
deriving DecidableEq

/-- `TranslatorError` of `translator_error.rs` (the `Reqwest` transport-error
variant carries an unmodelled foreign error value). -/
inductive TranslatorError
  | reqwest
  | apiError (e : ApiError)
  | unknownLanguage (l : Language)
  | couldNotMapLanguage (s : Option Str)
  | noResponse
  | requestToLong (actual limit : Nat)
  | requestFailed (status : Nat)
  | noLanguage
deriving DecidableEq

/-- `TranslationOutput` of `async_translator.rs`. -/
structure TranslationOutput where
  text : Str
  lang : Option Language
deriving DecidableEq

/-- `TranslationListOutput` of `async_translator.rs`. -/
structure TranslationListOutput where
  text : List Str
  lang : Option Language
deriving DecidableEq

/-- Outcome of running an adapter operation: normal return, error return via
`anyhow::Result`, or a Rust panic (e.g. `Vec::remove(0)` on an empty vector,
or byte slicing off a character boundary). -/
inductive RunResult (α : Type)
  | ok (a : α)
  | err (e : TranslatorError)
  | panic
deriving DecidableEq

/-- Rust `Option::ok_or(err)?` as used throughout the adapters. -/
def okOr {α : Type} (o : Option α) (e : TranslatorError) : Except TranslatorError α :=
  match o with
  | some a => Except.ok a
  | none => Except.error e

/- ### Baidu adapter (`baidu_translator.rs`) -/

/-- `BaiduApiError::solution` (lines 224-267): the provider-published
remediation table, keyed on the raw error-code string, with a generic
fallback for unknown codes. -/
def baiduSolution (code : Str) : Str :=
  if code = ("52000".toList) then ("成功".toList)
  else if code = ("52001".toList) then ("请求超时。\n解决方案：请重试。".toList)
  else if code = ("52002".toList) then ("系统错误。\n解决方案：请重试。".toList)
  else if code = ("52003".toList) then ("未授权用户。\n解决方案：请检查appid是否正确或服务是否已开通。".toList)
  else if code = ("54000".toList) then ("必填参数为空。\n解决方案：请检查是否传递了所有必要参数。".toList)
  else if code = ("54001".toList) then ("签名错误。\n解决方案：请检查签名生成方式。".toList)
  else if code = ("54003".toList) then ("访问频率受限。\n解决方案：请降低调用频率，或通过认证后切换到高级版本。".toList)
  else if code = ("54004".toList) then ("账户余额不足。\n解决方案：请前往管理控制台充值。".toList)
  else if code = ("54005".toList) then ("长查询请求过于频繁。\n解决方案：请降低长查询的发送频率，3秒后重试。".toList)
  else if code = ("58000".toList) then ("客户端IP非法。\n解决方案：检查个人信息中填写的IP地址是否正确，可前往开发者信息-基本信息进行修改。".toList)
  else if code = ("58001".toList) then ("目标语言方向不支持。\n解决方案：检查目标语言是否在语言列表中。".toList)
  else if code = ("58002".toList) then ("服务目前已下线。\n解决方案：请前往管理控制台开启服务。".toList)
  else if code = ("58003".toList) then ("如果同一IP在同一天使用多个APPID发送翻译请求，该IP将在当日剩余时间内被禁止请求，次日解封。请勿将APPID和密钥输入第三方软件。".toList)
  else if code = ("90107".toList) then ("认证未通过或已失效。\n解决方案：请前往我的认证查看认证进度。".toList)
  else if code = ("20003".toList) then ("请检查请求文本是否涉及颠覆、暴力或类似主题相关内容。".toList)
  else ("未知错误".toList)

/-- The codes of the published remediation table, in source order. -/
def baiduKnownCodes : List Str :=
  ["52000", "52001", "52002", "52003", "54000", "54001", "54003", "54004",
   "54005", "58000", "58001", "58002", "58003", "90107", "20003"].map String.toList

/-- The `Form` struct serialized into the Baidu POST body. -/
structure Form where
  q : Str
  fromc : Str
  toc : Str
  appid : Str
  salt : Str
  sign : Str
deriving DecidableEq

/-- `Form::new` (lines 162-173): the signature is the lowercase-hex MD5 of the
UTF-8 bytes of `appid ++ q ++ salt ++ key`. -/
def Form.new (appid q salt key fromc toc : Str) : Form :=
  { q := q, fromc := fromc, toc := toc, appid := appid, salt := salt,
    sign := md5Hex (utf8 (appid ++ q ++ salt ++ key)) }

/-- The decoded Baidu response: serde's untagged union of the success shape
`TranslationResponse { to, trans_result }` and the error shape
`BaiduApiError { error_code, error_msg }`. -/
inductive BaiduResponse
  | ok (toStr : Str) (trans_result : List Str)
  | err (code : Str) (msg : Str)
deriving DecidableEq

/-- The pre-network part of `BaiduTranslator::translate` (lines 46-53):
language mapping (`to` first, then `from`, `None` ⇒ `"auto"`) and form
construction.  `toB` is the macro-generated `Language::to_baidu` table. -/
def baiduBuildForm (toB : Language → Option Str) (appId key : Str) (query : Str)
    (fromL : Option Language) (toL : Language) : Except TranslatorError Form := do
  let toc ← okOr (toB toL) (TranslatorError.unknownLanguage toL)
  let fromc ← match fromL with
    | some item => okOr (toB item) (TranslatorError.unknownLanguage item)
    | none => Except.ok ("auto".toList)
  Except.ok (Form.new appId query ("0".toList) key fromc toc)

/-- `BaiduTranslator::translate` (lines 40-84) against a stubbed decoded
transport response.  `fromB` is the macro-generated `Language::from_baidu`. -/
def baiduTranslate (toB : Language → Option Str) (fromB : Str → Option Language)
    (appId key : Str) (query : Str) (fromL : Option Language) (toL : Language)
    (resp : BaiduResponse) : Except TranslatorError TranslationOutput := do
  let _form ← baiduBuildForm toB appId key query fromL toL
  match resp with
  | BaiduResponse.err code _msg =>
    Except.error (TranslatorError.apiError (ApiError.Baidu code (baiduSolution code)))
  | BaiduResponse.ok toStr transResult => do
    let lang ← okOr (fromB toStr) (TranslatorError.couldNotMapLanguage (some toStr))
    Except.ok { text := rustJoin (['\n']) (transResult), lang := some lang }

def natStr (n : Nat) : Str :=
  (Nat.repr n).toList

/-- Is byte `i` a UTF-8 character boundary of the byte string (Rust slicing
panics when it is not)?  A boundary is the end of the string or a byte that is
not a continuation byte. -/
def isCharBoundaryAt (s : List Nat) (i : Nat) : Bool :=
  match (s.drop i).head? with
  | none => true
  | some b => if 128 ≤ b ∧ b < 192 then false else true

/-- `truncate` (lines 197-206).  The source computes `s.len()` — the BYTE
length — and slices `&s[..10]` / `&s[size - 10..]` at BYTE indices, so the
whole function is byte-based; `none` models the Rust panic when a slice index
falls inside a multi-byte character. -/
def truncate (s : List Nat) : Option (List Nat) :=
  let size := s.length
  if size ≤ 20 then some s
  else if isCharBoundaryAt s 10 ∧ isCharBoundaryAt s (size - 10) then
    some (s.take 10 ++ utf8 (natStr size) ++ s.drop (size - 10))
  else none

/-- Modelled from the spec: the character-based reading of `truncate` asserted
by the specification ("first 10 characters, decimal length, last 10
characters", counting characters rather than bytes), for comparison with the
byte-based source function. -/
def truncateSpec (s : Str) : Str :=
  if s.length ≤ 20 then s
  else s.take 10 ++ natStr s.length ++ s.drop (s.length - 10)

/-- `sha256_encode` (lines 74-79): lowercase-hex SHA-256 of the UTF-8 bytes. -/
def sha256_encode (signStr : Str) : Str :=
  bytesToHex (sha256Bytes (utf8 signStr))

/-- The form POSTed to the Youdao endpoint (lines 151-160). -/
structure YoudaoForm where
  fromc : Str
  toc : Str
  signType : Str
  curtime : Str
  appKey : Str
  q : Str
  salt : Str
  sign : Str
deriving DecidableEq

/-- The pre-network part of `YoudaoTranslator::translate_vec` (lines 129-160):
join on `"\n"`, sign `appKey ++ truncate(q) ++ salt ++ curtime ++ appSecret`
with SHA-256, then map `from` (`None` ⇒ `"auto"`) and `to`.  `curtime` and
`salt` stand for the wall-clock time and generated UUID (injected so runs are
deterministic); `toY` is the macro-generated `Language::to_youdao`.
A `truncate` slice off a character boundary panics before any language
mapping. -/
def youdaoBuildForm (toY : Language → Option Str) (appKey appSecret : Str)
    (curtime : Nat) (salt : Str) (query : List Str) (fromL : Option Language)
    (toL : Language) : RunResult YoudaoForm :=
  let q := rustJoin (['\n']) query
  match truncate (utf8 q) with
  | none => RunResult.panic
  | some tq =>
    let sign := bytesToHex (sha256Bytes (utf8 appKey ++ tq ++ utf8 salt
      ++ utf8 (natStr curtime) ++ utf8 appSecret))
    match (match fromL with
           | some f => okOr (toY f) (TranslatorError.unknownLanguage f)
           | none => Except.ok ("auto".toList)) with
    | Except.error e => RunResult.err e
    | Except.ok fromc =>
      match toY toL with
      | none => RunResult.err (TranslatorError.unknownLanguage toL)
      | some toc =>
        RunResult.ok
          { fromc := fromc, toc := toc, signType := ("v3".toList),
            curtime := natStr curtime, appKey := appKey, q := q, salt := salt,
            sign := sign }

/-- `YoudaoTranslator::translate_vec` (lines 123-173) against a stubbed decoded
response `Resp { translation }`: each returned translation is split on the
literal two-character token `"/n"` and the pieces are concatenated. -/
def youdaoTranslateVec (toY : Language → Option Str) (appKey appSecret : Str)
    (curtime : Nat) (salt : Str) (query : List Str) (fromL : Option Language)
    (toL : Language) (respTranslation : List Str) :
    RunResult TranslationListOutput :=
  match youdaoBuildForm toY appKey appSecret curtime salt query fromL toL with
  | RunResult.panic => RunResult.panic
  | RunResult.err e => RunResult.err e
  | RunResult.ok _form =>
    RunResult.ok
      { text := (respTranslation.map (splitOnSeq ("/n".toList))).flatten,
        lang := none }

/-- `YoudaoTranslator::translate` (lines 99-112): delegates to `translate_vec`
on a one-element batch and takes `t.text.remove(0)`, which panics when the
returned list is empty. -/
def youdaoTranslate (toY : Language → Option Str) (appKey appSecret : Str)
    (curtime : Nat) (salt : Str) (query : Str) (fromL : Option Language)
    (toL : Language) (respTranslation : List Str) : RunResult TranslationOutput :=
  match youdaoTranslateVec toY appKey appSecret curtime salt [query] fromL toL
      respTranslation with
  | RunResult.panic => RunResult.panic
  | RunResult.err e => RunResult.err e
  | RunResult.ok t =>
    match t.text with
    | [] => RunResult.panic
    | x :: _ => RunResult.ok { text := x, lang := some toL }

/- ### MyMemory adapter (`mymemory_translator.rs`) -/

/-- The subset of `serde_json::Value` shapes a stubbed `translatedText` /
`translateText` field takes in the claims: JSON null or a JSON string. -/
inductive JValue
  | null
  | str (s : Str)
deriving DecidableEq

/-- `serde_json`'s JSON string escaping of one character: `"` and `\` get a
backslash, the five short control escapes are `\b \t \n \f \r`, the remaining
control characters print as `\u00XX` with lowercase hex, and everything else
is passed through (the solidus is not escaped). -/
def jsonEscapeChar (c : Char) : Str :=
  if c = '"' then ['\\', '"']
  else if c = '\\' then ['\\', '\\']
  else if c.toNat = 8 then ['\\', 'b']
  else if c.toNat = 9 then ['\\', 't']
  else if c.toNat = 10 then ['\\', 'n']
  else if c.toNat = 12 then ['\\', 'f']
  else if c.toNat = 13 then ['\\', 'r']
  else if c.toNat < 32 then '\\' :: 'u' :: '0' :: '0' :: byteHex c.toNat
  else [c]

/-- `serde_json::Value::to_string` on that subset: `null` prints as the
four-character string `null`, a string prints quoted with JSON string
escaping applied to its characters. -/
def jToString : JValue → Str
  | JValue.null => ("null".toList)
  | JValue.str s => '"' :: ((s.map jsonEscapeChar).flatten ++ ['"'])

/-- `input_limit_checker` (identical in `mymemory_translator.rs` lines 37-45
and `alibaba_translator.rs` lines 36-44): compares the BYTE length of the
query against the limit.  The reported actual length goes through the
source's `query.len() as u32` cast, which wraps at `2^32`. -/
def input_limit_checker (query : Str) (input_limit : Nat) :
    Except TranslatorError Unit :=
  if rustLen query > input_limit then
    Except.error (TranslatorError.requestToLong
      (rustLen query % 4294967296) input_limit)
  else
    Except.ok ()

/-- The `text.starts_with('"') && text.ends_with('"')` quote-stripping step of
both GET adapters (lines 109-111 / 104-106). -/
def stripQuotes (t : Str) : Str :=
  if t.head? = some '"' ∧ t.getLast? = some '"' then (t.drop 1).dropLast
  else t

/-- A stubbed transport response for the two GET adapters: HTTP status plus
the `responseData.translatedText` (resp. `data.translateText`) field of the
decoded JSON body. -/
structure StubResponse where
  status : Nat
  field : JValue
deriving DecidableEq

/-- The query-string data of the MyMemory GET URL (lines 80-87). -/
structure MyMemoryRequest where
  q : Str
  fromc : Str
  toc : Str
deriving DecidableEq

/-- The pre-network part of `MyMemoryTranslator::translate` (lines 71-87):
input-limit check first, then `from` (`None` ⇒ `"Autodetect"`), then the URL.
`toM` is the macro-generated `Language::to_mymemory`. -/
def mymemoryBuildRequest (toM : Language → Option Str) (query : Str)
    (fromL : Option Language) (toL : Language) :
    Except TranslatorError MyMemoryRequest := do
  input_limit_checker query 500
  let fromc ← match fromL with
    | some lang => okOr (toM lang) (TranslatorError.unknownLanguage lang)
    | none => Except.ok ("Autodetect".toList)
  let toc ← okOr (toM toL) (TranslatorError.unknownLanguage toL)
  Except.ok { q := query, fromc := fromc, toc := toc }

/-- `MyMemoryTranslator::translate` (lines 65-117) against a stubbed
response: non-2xx status is `RequestFailed`; a JSON-null `translatedText`
(printed `null`) is `NoResponse`; otherwise surrounding quotes are stripped. -/
def mymemoryTranslate (toM : Language → Option Str) (query : Str)
    (fromL : Option Language) (toL : Language) (resp : StubResponse) :
    Except TranslatorError TranslationOutput := do
  let _req ← mymemoryBuildRequest toM query fromL toL
  if ¬ (200 ≤ resp.status ∧ resp.status ≤ 299) then
    Except.error (TranslatorError.requestFailed resp.status)
  else
    let text := jToString resp.field
    if text = ("null".toList) then
      Except.error TranslatorError.noResponse
    else
      Except.ok { text := stripQuotes text, lang := some toL }

/-- The query-string data of the Alibaba GET URL (lines 79-87). -/
structure AlibabaRequest where
  domain : Str
  query : Str
  srcLang : Str
  tgtLang : Str
deriving DecidableEq

/-- The pre-network part of `AlibabaTranslator::translate` (lines 70-87):
same shape as MyMemory but `from` defaults to `"auto"` and languages map via
`Language::to_mymemory_short` (`toMS`). -/
def alibabaBuildRequest (toMS : Language → Option Str) (query : Str)
    (fromL : Option Language) (toL : Language) :
    Except TranslatorError AlibabaRequest := do
  input_limit_checker query 500
  let fromc ← match fromL with
    | some lang => okOr (toMS lang) (TranslatorError.unknownLanguage lang)
    | none => Except.ok ("auto".toList)
  let toc ← okOr (toMS toL) (TranslatorError.unknownLanguage toL)
  Except.ok
    { domain := ("general".toList), query := query, srcLang := fromc,
      tgtLang := toc }

/-- `AlibabaTranslator::translate` (lines 64-112) against a stubbed response:
identical discrimination to MyMemory on the `data.translateText` field. -/
def alibabaTranslate (toMS : Language → Option Str) (query : Str)
    (fromL : Option Language) (toL : Language) (resp : StubResponse) :
    Except TranslatorError TranslationOutput := do
  let _req ← alibabaBuildRequest toMS query fromL toL
  if ¬ (200 ≤ resp.status ∧ resp.status ≤ 299) then
    Except.error (TranslatorError.requestFailed resp.status)
  else
    let text := jToString resp.field
    if text = ("null".toList) then
      Except.error TranslatorError.noResponse
    else
      Except.ok { text := stripQuotes text, lang := some toL }

/-- `CaiyunRequest` (lines 9-21). -/
structure CaiyunRequest where
  trans_type : Str
  source : List Str
  detect : Option Bool
  request_id : Str
deriving DecidableEq

/-- The pre-network part of `CaiyunTranslator::translate_vec` (lines 93-110):
`from` (`None` ⇒ `"auto"`), `to`, `trans_type = from ++ "2" ++ to`, and the
`detect` flag set exactly when no source language was supplied.  `toC` is the
macro-generated `Language::to_caiyun`. -/
def caiyunBuildRequest (toC : Language → Option Str) (requestId : Str)
    (query : List Str) (fromL : Option Language) (toL : Language) :
    Except TranslatorError CaiyunRequest := do
  let fromc ← match fromL with
    | some f => okOr (toC f) (TranslatorError.unknownLanguage f)
    | none => Except.ok ("auto".toList)
  let toc ← okOr (toC toL) (TranslatorError.unknownLanguage toL)
  Except.ok
    { trans_type := fromc ++ ('2' :: toc), source := query,
      detect := if fromL.isNone then some true else none,
      request_id := requestId }

/-- `CaiyunTranslator::translate_vec` (lines 87-127) against a stubbed decoded
`CaiyunResponse { target }`: a missing `target` decodes to the empty vector
via `unwrap_or_default`. -/
def caiyunTranslateVec (toC : Language → Option Str) (requestId : Str)
    (query : List Str) (fromL : Option Language) (toL : Language)
    (respTarget : Option (List Str)) :
    Except TranslatorError TranslationListOutput := do
  let _req ← caiyunBuildRequest toC requestId query fromL toL
  Except.ok { text := respTarget.getD [], lang := none }

/-- `CaiyunTranslator::translate` (lines 63-76): delegates to `translate_vec`
on a one-element batch and takes `v.text.remove(0)`, which panics when the
returned list is empty. -/
def caiyunTranslate (toC : Language → Option Str) (requestId : Str)
    (query : Str) (fromL : Option Language) (toL : Language)
    (respTarget : Option (List Str)) : RunResult TranslationOutput :=
  match caiyunTranslateVec toC requestId [query] fromL toL respTarget with
  | Except.error e => RunResult.err e
  | Except.ok v =>
    match v.text with
    | [] => RunResult.panic
    | x :: _ => RunResult.ok { text := x, lang := some toL }

/- ### Provider factory (`translator_factory.rs`) -/

/-- `TranslatorType` (lines 13-19). -/
inductive TranslatorType
  | Baidu
  | Youdao
  | Alibaba
  | Caiyun
  | MyMemory
deriving DecidableEq

/-- ASCII lowercasing of one character; models Rust `str::to_lowercase` on the
identifier alphabet actually accepted by the factory (ASCII letters plus the
CJK alias, which lowercasing leaves unchanged). -/
def asciiToLower (c : Char) : Char :=
  if 'A' ≤ c ∧ c ≤ 'Z' then Char.ofNat (c.toNat + 32) else c

def rustToLowercase (s : Str) : Str :=
  s.map asciiToLower

/-- `TranslatorType::from_str` (lines 21-34): lowercase, then match against
the provider names and documented aliases; anything else is `Err(())`. -/
def TranslatorType.fromStr (s : Str) : Except Unit TranslatorType :=
  let l := rustToLowercase s
  if l = ("baidu".toList) then Except.ok TranslatorType.Baidu
  else if l = ("youdao".toList) then Except.ok TranslatorType.Youdao
  else if l = ("alibaba".toList) ∨ l = ("ali".toList) then
    Except.ok TranslatorType.Alibaba
  else if l = ("caiyun".toList) ∨ l = ("彩云".toList) then
    Except.ok TranslatorType.Caiyun
  else if l = ("mymemory".toList) ∨ l = ("my-memory".toList)
      ∨ l = ("my memory".toList) then
    Except.ok TranslatorType.MyMemory
  else Except.error ()

/-- `TranslatorType::parse` (lines 38-40): `from_str(s).ok()`. -/
def TranslatorType.parse (s : Str) : Option TranslatorType :=
  (TranslatorType.fromStr s).toOption

/-- All identifier spellings (after lowercasing) the factory accepts. -/
def translatorAliases : List Str :=
  ["baidu", "youdao", "alibaba", "ali", "caiyun", "彩云", "mymemory",
   "my-memory", "my memory"].map String.toList


/-- Constant language-mapping table used to instantiate witnesses: every
language maps to the given wire code. -/
def stubMapConst (t : Str) : Language → Option Str :=
  fun _ => some t

/-- Mapping table for witnesses that supports only English. -/
def stubMapEnOnly : Language → Option Str :=
  fun l => if l = Language.English then some ("en".toList) else none

/-- Empty mapping table for witnesses: no language is supported. -/
def stubMapNone : Language → Option Str :=
  fun _ => none

/-- Constant reverse mapping used to instantiate witnesses. -/
def stubFromConst (l : Language) : Str → Option Language :=
  fun _ => some l

end FT

/-- Decidable equality for `Except`, so concrete adapter runs can be settled
by `decide`. -/
instance {e a : Type} [DecidableEq e] [DecidableEq a] : DecidableEq (Except e a) :=
  fun x y =>
  match x, y with
  | Except.ok u, Except.ok v =>
    if h : u = v then isTrue (by rw [h])
    else isFalse (by intro hh; cases hh; exact h rfl)
  | Except.error u, Except.error v =>
    if h : u = v then isTrue (by rw [h])
    else isFalse (by intro hh; cases hh; exact h rfl)
  | Except.ok _, Except.error _ => isFalse (by intro hh; cases hh)
  | Except.error _, Except.ok _ => isFalse (by intro hh; cases hh)

/-!  Theorems.  -/

example : md5Hex (utf8 ("abc".toList)) = ("900150983cd24fb0d6963f7d28e17f72".toList) := by decide
example : md5Hex (utf8 ([])) = ("d41d8cd98f00b204e9800998ecf8427e".toList) := by decide
example : sha256Hex (utf8 ("abc".toList)) = ("ba7816bf8f01cfea414140de5dae2223b00361a396177a9cb410ff61f20015ad".toList) := by decide
example : sha256Hex (utf8 ([])) = ("e3b0c44298fc1c149afbf4c8996fb92427ae41e4649b934ca495991b7852b855".toList) := by decide
example : sha256Hex (utf8 ("abcdbcdecdefdefgefghfghighijhijkijkljklmklmnlmnomnopnopq".toList)) = ("248d6a61d20638b8e5c026930c3e6039a33ce45964ff2167f6ecedd419db06c1".toList) := by decide

theorem utf8_cons (c : Char) (t : Str) :
    utf8 (c :: t) = utf8EncodeChar c ++ utf8 t := by
  simp [utf8]

theorem utf8_append (a b : Str) : utf8 (a ++ b) = utf8 a ++ utf8 b := by
  simp [utf8]

theorem utf8EncodeChar_ascii (c : Char) (h : c.toNat < 128) :
    utf8EncodeChar c = [c.toNat] := by
  simp [utf8EncodeChar, h]

theorem utf8_ascii (s : Str) (h : ∀ c ∈ s, c.toNat < 128) :
    utf8 s = s.map Char.toNat := by
  induction s with
  | nil => rfl
  | cons c t ih =>
    rw [utf8_cons, utf8EncodeChar_ascii c (h c (by simp)),
      ih (fun a ha => h a (by simp [ha]))]
    rfl

theorem isCharBoundaryAt_of_ascii (bs : List Nat) (h : ∀ b ∈ bs, b < 128)
    (i : Nat) : FT.isCharBoundaryAt bs i = true := by
  unfold FT.isCharBoundaryAt
  cases hh : (bs.drop i).head? with
  | none => rfl
  | some b =>
    have hb : b ∈ bs :=
      List.mem_of_mem_drop (List.mem_of_mem_head? hh)
    have : b < 128 := h b hb
    simp
    omega

/-- C5: the Baidu request signature produced by `Form::new` equals the
lowercase hexadecimal MD5 digest of the concatenation
`appId ++ query ++ salt ++ secret`, in exactly that order, for every choice of
the four inputs; the digest function is pinned to real MD5 by the RFC 1321
test vectors and the concrete signature of `("appid","hello","salt","key")`. -/
theorem baidu_sign_is_md5_of_concat :
    (∀ appid q salt key fromc toc : Str,
      (FT.Form.new appid q salt key fromc toc).sign
        = md5Hex (utf8 (appid ++ q ++ salt ++ key)))
    ∧ md5Hex (utf8 ("abc".toList)) = ("900150983cd24fb0d6963f7d28e17f72".toList)
    ∧ md5Hex (utf8 ([] : Str)) = ("d41d8cd98f00b204e9800998ecf8427e".toList)
    ∧ (FT.Form.new ("appid".toList) ("hello".toList) ("salt".toList)
        ("key".toList) ("en".toList) ("zh".toList)).sign
        = ("e0c380041e2578d4f0f8f1ed275b5b8f".toList) :=
  ⟨fun _ _ _ _ _ _ => rfl, by decide, by decide, by decide⟩

/-- C9: the signature producers (`Form::new`'s `sign` field and
`sha256_encode`) are deterministic, and on a concrete pair of inputs differing
in a single character of the query text ("hello" vs "hellp") they produce
different outputs. -/
theorem signatures_deterministic_and_sensitive :
    (∀ s : Str, FT.sha256_encode s = FT.sha256_encode s)
    ∧ (∀ appid q salt key fromc toc : Str,
        FT.Form.new appid q salt key fromc toc
          = FT.Form.new appid q salt key fromc toc)
    ∧ (FT.Form.new ("appid".toList) ("hello".toList) ("salt".toList)
        ("key".toList) ("en".toList) ("zh".toList)).sign
      ≠ (FT.Form.new ("appid".toList) ("hellp".toList) ("salt".toList)
        ("key".toList) ("en".toList) ("zh".toList)).sign
    ∧ FT.sha256_encode ("hello".toList) ≠ FT.sha256_encode ("hellp".toList) :=
  ⟨fun _ => rfl, fun _ _ _ _ _ _ => rfl, by decide, by decide⟩

/-- C10: for Youdao and Caiyun, `translate` removes element 0 of the
`translate_vec` result without an emptiness check; a transport-successful
decoded response with an empty translation list makes `translate` panic
(`Vec::remove(0)` on an empty vector) instead of returning a taxonomy error. -/
theorem translate_panics_on_empty_translation_list :
    FT.youdaoTranslate (FT.stubMapConst ("en".toList)) ("k".toList)
        ("sec".toList) 0 ("salt".toList) ("hi".toList) none
        FT.Language.English []
      = FT.RunResult.panic
    ∧ FT.caiyunTranslate (FT.stubMapConst ("en".toList)) ("rid".toList)
        ("hi".toList) none FT.Language.English (some [])
      = FT.RunResult.panic :=
  ⟨by decide, by decide⟩

/-- C2 counterexample: `truncate` is NOT character-based.  On the 20-character
string of twenty `'é'` (40 UTF-8 bytes), the claim says `truncate` is the
identity, but the source's byte-based `truncate` rewrites it. -/
theorem truncate_not_char_based :
    (List.replicate 20 'é').length = 20
    ∧ FT.truncate (utf8 (List.replicate 20 'é'))
      ≠ some (utf8 (List.replicate 20 'é')) :=
  ⟨by decide, by decide⟩

/-- C2 amended: `truncate` counts and slices UTF-8 BYTES, not characters:
inputs of at most 20 bytes are returned unchanged; on ASCII text (where bytes
and characters coincide) it agrees with the spec's character-based rule, and
the spec's two examples hold (20-character ASCII identity; 21-character ASCII
gives first10 ++ "21" ++ last10). -/
theorem truncate_is_byte_based :
    (∀ b : List Nat, b.length ≤ 20 → FT.truncate b = some b)
    ∧ (∀ s : Str, (∀ c ∈ s, c.toNat < 128) →
        FT.truncate (utf8 s) = some (utf8 (FT.truncateSpec s)))
    ∧ FT.truncate (utf8 ("12345678901234567890".toList))
      = some (utf8 ("12345678901234567890".toList))
    ∧ FT.truncate (utf8 ("123456789012345678901".toList))
      = some (utf8 (("1234567890" ++ "21" ++ "2345678901").toList)) := by
  refine ⟨?_, ?_, by decide, by decide⟩
  · intro b hb
    unfold FT.truncate
    simp [hb]
  · intro s hs
    have hmap : utf8 s = s.map Char.toNat := utf8_ascii s hs
    have hb : ∀ b ∈ s.map Char.toNat, b < 128 := by
      intro b hbm
      obtain ⟨c, hc, rfl⟩ := List.mem_map.1 hbm
      exact hs c hc
    unfold FT.truncate FT.truncateSpec
    rw [hmap]
    have hlen : (s.map Char.toNat).length = s.length := List.length_map _ _
    by_cases h20 : s.length ≤ 20
    · rw [if_pos (by omega), if_pos h20, hmap]
    · rw [if_neg (by omega), if_neg h20]
      rw [if_pos (by simp [isCharBoundaryAt_of_ascii _ hb])]
      rw [utf8_append, utf8_append]
      rw [utf8_ascii _ (fun c hc => hs c (List.mem_of_mem_take hc)),
        utf8_ascii _ (fun c hc => hs c (List.mem_of_mem_drop hc))]
      rw [List.map_take, List.map_drop, hlen]

/-- C2 amended, witness: the identity case at a concrete 3-byte input and the
ASCII agreement at a concrete 26-character input. -/
theorem truncate_is_byte_based_witness :
    FT.truncate [1, 2, 3] = some [1, 2, 3]
    ∧ FT.truncate (utf8 ("abcdefghijklmnopqrstuvwxyz".toList))
      = some (utf8 (FT.truncateSpec ("abcdefghijklmnopqrstuvwxyz".toList))) :=
  ⟨truncate_is_byte_based.1 [1, 2, 3] (by decide),
   truncate_is_byte_based.2.1 ("abcdefghijklmnopqrstuvwxyz".toList) (by decide)⟩

/-- C3: for the adapters whose response carries a nullable translated field
(MyMemory and Alibaba), a transport-successful (2xx) response whose field is
JSON null makes `translate` fail with `NoResponse` (the EmptyOrNullResult
kind) — it never succeeds, in particular never with an empty string. -/
theorem null_translated_field_is_no_response :
    (∀ (toM : FT.Language → Option Str) (q : Str) (fromL : Option FT.Language)
        (toL : FT.Language) (status : Nat),
      rustLen q ≤ 500 →
      (∀ l, fromL = some l → (toM l).isSome) →
      (toM toL).isSome →
      200 ≤ status → status ≤ 299 →
      FT.mymemoryTranslate toM q fromL toL
          { status := status, field := FT.JValue.null }
        = Except.error FT.TranslatorError.noResponse)
    ∧ (∀ (toMS : FT.Language → Option Str) (q : Str) (fromL : Option FT.Language)
        (toL : FT.Language) (status : Nat),
      rustLen q ≤ 500 →
      (∀ l, fromL = some l → (toMS l).isSome) →
      (toMS toL).isSome →
      200 ≤ status → status ≤ 299 →
      FT.alibabaTranslate toMS q fromL toL
          { status := status, field := FT.JValue.null }
        = Except.error FT.TranslatorError.noResponse)
    ∧ (∀ out : FT.TranslationOutput,
      (Except.error FT.TranslatorError.noResponse
        : Except FT.TranslatorError FT.TranslationOutput) ≠ Except.ok out) := by
  refine ⟨?_, ?_, by intro out h; cases h⟩
  · intro toM q fromL toL status hlim hf ht h200 h299
    obtain ⟨tc, htc⟩ := Option.isSome_iff_exists.1 ht
    unfold FT.mymemoryTranslate FT.mymemoryBuildRequest FT.input_limit_checker
    rw [if_neg (by omega)]
    cases fromL with
    | none =>
      simp only [FT.okOr, htc, Except.bind, Bind.bind]
      rw [if_neg (by simp; omega)]
      simp [FT.jToString]
    | some l =>
      obtain ⟨fc, hfc⟩ := Option.isSome_iff_exists.1 (hf l rfl)
      simp only [FT.okOr, htc, hfc, Except.bind, Bind.bind]
      rw [if_neg (by simp; omega)]
      simp [FT.jToString]
  · intro toMS q fromL toL status hlim hf ht h200 h299
    obtain ⟨tc, htc⟩ := Option.isSome_iff_exists.1 ht
    unfold FT.alibabaTranslate FT.alibabaBuildRequest FT.input_limit_checker
    rw [if_neg (by omega)]
    cases fromL with
    | none =>
      simp only [FT.okOr, htc, Except.bind, Bind.bind]
      rw [if_neg (by simp; omega)]
      simp [FT.jToString]
    | some l =>
      obtain ⟨fc, hfc⟩ := Option.isSome_iff_exists.1 (hf l rfl)
      simp only [FT.okOr, htc, hfc, Except.bind, Bind.bind]
      rw [if_neg (by simp; omega)]
      simp [FT.jToString]

/-- C3 witness: concrete instantiation (MyMemory and Alibaba, query "hi",
auto-detect source, status 200, null field). -/
theorem null_translated_field_is_no_response_witness :
    FT.mymemoryTranslate (FT.stubMapConst ("en".toList)) ("hi".toList) none
        FT.Language.English { status := 200, field := FT.JValue.null }
      = Except.error FT.TranslatorError.noResponse
    ∧ FT.alibabaTranslate (FT.stubMapConst ("en".toList)) ("hi".toList) none
        FT.Language.English { status := 200, field := FT.JValue.null }
      = Except.error FT.TranslatorError.noResponse :=
  ⟨null_translated_field_is_no_response.1 (FT.stubMapConst ("en".toList))
      ("hi".toList) none FT.Language.English 200 (by decide) (by simp)
      (by decide) (by decide) (by decide),
   null_translated_field_is_no_response.2.1 (FT.stubMapConst ("en".toList))
      ("hi".toList) none FT.Language.English 200 (by decide) (by simp)
      (by decide) (by decide) (by decide)⟩

/-- C7 counterexample: the "actual length" carried by `RequestToLong` goes
through the source's `query.len() as u32` cast and wraps at `2^32`: on the
explicit input of `2^32 + 1` ASCII bytes the error carries `1`, not the
actual length `4294967297`. -/
theorem request_to_long_wraps_at_u32 :
    rustLen (List.replicate 4294967297 'a') = 4294967297
    ∧ FT.input_limit_checker (List.replicate 4294967297 'a') 500
      = Except.error (FT.TranslatorError.requestToLong 1 500)
    ∧ (1 : Nat) ≠ 4294967297 := by
  have hmem : ∀ c ∈ List.replicate 4294967297 'a', c.toNat < 128 := by
    intro c hc
    rw [List.eq_of_mem_replicate hc]
    decide
  have hlen : rustLen (List.replicate 4294967297 'a') = 4294967297 := by
    unfold rustLen
    rw [utf8_ascii _ hmem, List.length_map, List.length_replicate]
  refine ⟨hlen, ?_, by omega⟩
  unfold FT.input_limit_checker
  rw [hlen]
  rw [if_pos (by omega)]

/-- C7 amended: for the length-limited adapters (MyMemory and Alibaba, limit
500), an input longer than 500 bytes fails with `RequestToLong` carrying the
maximum and the actual byte length as a u32 — the length reduced mod `2^32`
by the source's `as u32` cast, which equals the actual length whenever the
input is shorter than `2^32` bytes — before the URL is built and before any
network interaction (the result is the same for every stubbed response and
every language argument); `RequestToLong` is distinct from the
`RequestFailed` transport kind; and the limit checker passes inputs at or
below the limit. -/
theorem oversize_input_is_request_to_long :
    (∀ (toM : FT.Language → Option Str) (q : Str) (fromL : Option FT.Language)
        (toL : FT.Language) (resp : FT.StubResponse),
      rustLen q > 500 →
      FT.mymemoryTranslate toM q fromL toL resp
        = Except.error (FT.TranslatorError.requestToLong
            (rustLen q % 4294967296) 500))
    ∧ (∀ (toMS : FT.Language → Option Str) (q : Str) (fromL : Option FT.Language)
        (toL : FT.Language) (resp : FT.StubResponse),
      rustLen q > 500 →
      FT.alibabaTranslate toMS q fromL toL resp
        = Except.error (FT.TranslatorError.requestToLong
            (rustLen q % 4294967296) 500))
    ∧ (∀ (toM : FT.Language → Option Str) (q : Str) (fromL : Option FT.Language)
        (toL : FT.Language) (resp : FT.StubResponse),
      rustLen q > 500 → rustLen q < 4294967296 →
      FT.mymemoryTranslate toM q fromL toL resp
        = Except.error (FT.TranslatorError.requestToLong (rustLen q) 500))
    ∧ (∀ (toMS : FT.Language → Option Str) (q : Str) (fromL : Option FT.Language)
        (toL : FT.Language) (resp : FT.StubResponse),
      rustLen q > 500 → rustLen q < 4294967296 →
      FT.alibabaTranslate toMS q fromL toL resp
        = Except.error (FT.TranslatorError.requestToLong (rustLen q) 500))
    ∧ (∀ (q : Str) (lim : Nat), rustLen q ≤ lim →
      FT.input_limit_checker q lim = Except.ok ())
    ∧ (∀ a b c : Nat,
      FT.TranslatorError.requestToLong a b ≠ FT.TranslatorError.requestFailed c) := by
  refine ⟨?_, ?_, ?_, ?_, ?_, by intro a b c h; cases h⟩
  · intro toM q fromL toL resp hlim
    unfold FT.mymemoryTranslate FT.mymemoryBuildRequest FT.input_limit_checker
    rw [if_pos (by omega)]
    rfl
  · intro toMS q fromL toL resp hlim
    unfold FT.alibabaTranslate FT.alibabaBuildRequest FT.input_limit_checker
    rw [if_pos (by omega)]
    rfl
  · intro toM q fromL toL resp hlim hsmall
    unfold FT.mymemoryTranslate FT.mymemoryBuildRequest FT.input_limit_checker
    rw [if_pos (by omega), Nat.mod_eq_of_lt hsmall]
    rfl
  · intro toMS q fromL toL resp hlim hsmall
    unfold FT.alibabaTranslate FT.alibabaBuildRequest FT.input_limit_checker
    rw [if_pos (by omega), Nat.mod_eq_of_lt hsmall]
    rfl
  · intro q lim hlim
    unfold FT.input_limit_checker
    rw [if_neg (by omega)]

/-- C7 witness: a 501-byte ASCII query (below the `2^32` wrap) is rejected
with `RequestToLong` carrying its actual length by both adapters, for an
arbitrary stub response and even an unmappable language table; a 500-byte
query passes the checker. -/
theorem oversize_input_is_request_to_long_witness :
    FT.mymemoryTranslate FT.stubMapNone (List.replicate 501 'a') none
        FT.Language.English { status := 200, field := FT.JValue.null }
      = Except.error (FT.TranslatorError.requestToLong
          (rustLen (List.replicate 501 'a')) 500)
    ∧ FT.alibabaTranslate FT.stubMapNone (List.replicate 501 'a') none
        FT.Language.English { status := 200, field := FT.JValue.null }
      = Except.error (FT.TranslatorError.requestToLong
          (rustLen (List.replicate 501 'a')) 500)
    ∧ FT.input_limit_checker (List.replicate 500 'a') 500 = Except.ok () :=
  ⟨oversize_input_is_request_to_long.2.2.1 FT.stubMapNone
      (List.replicate 501 'a') none FT.Language.English
      { status := 200, field := FT.JValue.null } (by decide) (by decide),
   oversize_input_is_request_to_long.2.2.2.1 FT.stubMapNone
      (List.replicate 501 'a') none FT.Language.English
      { status := 200, field := FT.JValue.null } (by decide) (by decide),
   oversize_input_is_request_to_long.2.2.2.2.1 (List.replicate 500 'a') 500
      (by decide)⟩

/-- C4: the Baidu error-code remediation function `solution` is total — it
returns the generic "未知错误" entry exactly for the codes outside the
published table — and `translate` on a decoded application-level error payload
fails with `ApiError` (ProviderRejected) carrying the provider's original code
string unmodified. -/
theorem baidu_solution_total_and_error_payload_rejected :
    (∀ code : Str,
      FT.baiduSolution code = ("未知错误".toList) ↔ code ∉ FT.baiduKnownCodes)
    ∧ (∀ (toB : FT.Language → Option Str) (fromB : Str → Option FT.Language)
        (appId key q : Str) (fromL : Option FT.Language) (toL : FT.Language)
        (code msg tc : Str),
      (∀ l, fromL = some l → (toB l).isSome) →
      toB toL = some tc →
      FT.baiduTranslate toB fromB appId key q fromL toL
          (FT.BaiduResponse.err code msg)
        = Except.error (FT.TranslatorError.apiError
            (FT.ApiError.Baidu code (FT.baiduSolution code)))) := by
  constructor
  · intro code
    by_cases hm : code ∈ FT.baiduKnownCodes
    · simp only [FT.baiduKnownCodes, List.mem_map, List.mem_cons,
        List.not_mem_nil, or_false] at hm
      obtain ⟨src, hsrc, rfl⟩ := hm
      rcases hsrc with rfl | rfl | rfl | rfl | rfl | rfl | rfl | rfl | rfl
        | rfl | rfl | rfl | rfl | rfl | rfl <;> decide
    · refine iff_of_true ?_ hm
      unfold FT.baiduSolution
      iterate 15 rw [if_neg (fun h => hm (by rw [h]; decide))]
  · intro toB fromB appId key q fromL toL code msg tc hf htc
    unfold FT.baiduTranslate FT.baiduBuildForm
    cases fromL with
    | none => simp only [FT.okOr, htc, Except.bind, Bind.bind]
    | some l =>
      obtain ⟨fc, hfc⟩ := Option.isSome_iff_exists.1 (hf l rfl)
      simp only [FT.okOr, htc, hfc, Except.bind, Bind.bind]

/-- C4 witness: the unknown code "99999" maps to the generic entry, and a
stubbed error payload with code "54001" surfaces as an `ApiError` carrying
"54001". -/
theorem baidu_solution_total_and_error_payload_rejected_witness :
    (FT.baiduSolution ("99999".toList) = ("未知错误".toList)
      ↔ ("99999".toList) ∉ FT.baiduKnownCodes)
    ∧ FT.baiduTranslate (FT.stubMapConst ("en".toList))
        (FT.stubFromConst FT.Language.English) ("id".toList) ("key".toList)
        ("hi".toList) none FT.Language.English
        (FT.BaiduResponse.err ("54001".toList) ("msg".toList))
      = Except.error (FT.TranslatorError.apiError
          (FT.ApiError.Baidu ("54001".toList)
            (FT.baiduSolution ("54001".toList)))) :=
  ⟨baidu_solution_total_and_error_payload_rejected.1 ("99999".toList),
   baidu_solution_total_and_error_payload_rejected.2
      (FT.stubMapConst ("en".toList)) (FT.stubFromConst FT.Language.English)
      ("id".toList) ("key".toList) ("hi".toList) none FT.Language.English
      ("54001".toList) ("msg".toList) ("en".toList)
      (by intro l h; cases h) rfl⟩

/-- C8: provider-identifier parsing is case-insensitive with the documented
aliases ("ali", "彩云", "my-memory", "my memory"); every string whose
lowercasing is outside the accepted set makes `from_str` return an error and
`parse` return `None` — the factory never defaults to a concrete provider. -/
theorem provider_identifier_parsing :
    (∀ s : Str,
      FT.TranslatorType.fromStr s = Except.error ()
        ↔ FT.rustToLowercase s ∉ FT.translatorAliases)
    ∧ (∀ s : Str,
      FT.TranslatorType.parse s = (FT.TranslatorType.fromStr s).toOption)
    ∧ FT.TranslatorType.parse ("BaIdU".toList) = some FT.TranslatorType.Baidu
    ∧ FT.TranslatorType.parse ("YOUDAO".toList) = some FT.TranslatorType.Youdao
    ∧ FT.TranslatorType.parse ("ALI".toList) = some FT.TranslatorType.Alibaba
    ∧ FT.TranslatorType.parse ("alibaba".toList) = some FT.TranslatorType.Alibaba
    ∧ FT.TranslatorType.parse ("彩云".toList) = some FT.TranslatorType.Caiyun
    ∧ FT.TranslatorType.parse ("caiyun".toList) = some FT.TranslatorType.Caiyun
    ∧ FT.TranslatorType.parse ("My-Memory".toList) = some FT.TranslatorType.MyMemory
    ∧ FT.TranslatorType.parse ("my memory".toList) = some FT.TranslatorType.MyMemory
    ∧ FT.TranslatorType.parse ("mymemory".toList) = some FT.TranslatorType.MyMemory
    ∧ FT.TranslatorType.parse ("unknown".toList) = none
    ∧ FT.TranslatorType.fromStr ("unknown".toList) = Except.error () := by
  refine ⟨?_, fun _ => rfl, by decide, by decide, by decide, by decide,
    by decide, by decide, by decide, by decide, by decide, by decide, by decide⟩
  intro s
  unfold FT.TranslatorType.fromStr
  dsimp only
  split_ifs with h1 h2 h3 h4 h5
  · exact iff_of_false (by simp) (by simp [FT.translatorAliases, h1])
  · exact iff_of_false (by simp) (by simp [FT.translatorAliases, h2])
  · rcases h3 with h | h <;>
      exact iff_of_false (by simp) (by simp [FT.translatorAliases, h])
  · rcases h4 with h | h <;>
      exact iff_of_false (by simp) (by simp [FT.translatorAliases, h])
  · rcases h5 with h | h | h <;>
      exact iff_of_false (by simp) (by simp [FT.translatorAliases, h])
  · refine iff_of_true rfl ?_
    intro hm
    simp only [FT.translatorAliases, List.mem_map, List.mem_cons,
      List.not_mem_nil, or_false] at hm
    obtain ⟨src, hsrc, heq⟩ := hm
    rcases hsrc with rfl | rfl | rfl | rfl | rfl | rfl | rfl | rfl | rfl <;>
      simp_all

/-- C6: for every adapter, an explicitly supplied source language that the
provider's mapping table does not support fails with `UnknownLanguage` before
any network interaction (the result is the same error for every stubbed
response), and the auto-detect wire value ("auto" / "Autodetect") appears in
the built request exactly when the caller passed no source language: with an
explicit source the request's source field is the table's value for it. -/
theorem unmappable_explicit_source_is_hard_error :
    (∀ (toB : FT.Language → Option Str) (fromB : Str → Option FT.Language)
        (appId key q : Str) (lang toL : FT.Language) (tc : Str)
        (resp : FT.BaiduResponse),
      toB toL = some tc → toB lang = none →
      FT.baiduTranslate toB fromB appId key q (some lang) toL resp
        = Except.error (FT.TranslatorError.unknownLanguage lang))
    ∧ (∀ (toY : FT.Language → Option Str) (appKey appSecret : Str)
        (curtime : Nat) (salt : Str) (query : List Str) (lang toL : FT.Language)
        (respT : List Str) (tb : List Nat),
      FT.truncate (utf8 (rustJoin (['\n']) query)) = some tb →
      toY lang = none →
      FT.youdaoTranslateVec toY appKey appSecret curtime salt query (some lang)
          toL respT
        = FT.RunResult.err (FT.TranslatorError.unknownLanguage lang))
    ∧ (∀ (toM : FT.Language → Option Str) (q : Str) (lang toL : FT.Language)
        (resp : FT.StubResponse),
      rustLen q ≤ 500 → toM lang = none →
      FT.mymemoryTranslate toM q (some lang) toL resp
        = Except.error (FT.TranslatorError.unknownLanguage lang))
    ∧ (∀ (toMS : FT.Language → Option Str) (q : Str) (lang toL : FT.Language)
        (resp : FT.StubResponse),
      rustLen q ≤ 500 → toMS lang = none →
      FT.alibabaTranslate toMS q (some lang) toL resp
        = Except.error (FT.TranslatorError.unknownLanguage lang))
    ∧ (∀ (toC : FT.Language → Option Str) (rid : Str) (query : List Str)
        (lang toL : FT.Language) (respTarget : Option (List Str)),
      toC lang = none →
      FT.caiyunTranslateVec toC rid query (some lang) toL respTarget
        = Except.error (FT.TranslatorError.unknownLanguage lang))
    ∧ (∀ (toB : FT.Language → Option Str) (appId key q : Str)
        (lang toL : FT.Language) (f : FT.Form),
      FT.baiduBuildForm toB appId key q (some lang) toL = Except.ok f →
      toB lang = some f.fromc)
    ∧ (∀ (toB : FT.Language → Option Str) (appId key q : Str)
        (toL : FT.Language) (f : FT.Form),
      FT.baiduBuildForm toB appId key q none toL = Except.ok f →
      f.fromc = ("auto".toList))
    ∧ (∀ (toM : FT.Language → Option Str) (q : Str) (lang toL : FT.Language)
        (r : FT.MyMemoryRequest),
      FT.mymemoryBuildRequest toM q (some lang) toL = Except.ok r →
      toM lang = some r.fromc)
    ∧ (∀ (toM : FT.Language → Option Str) (q : Str) (toL : FT.Language)
        (r : FT.MyMemoryRequest),
      FT.mymemoryBuildRequest toM q none toL = Except.ok r →
      r.fromc = ("Autodetect".toList))
    ∧ (∀ (toC : FT.Language → Option Str) (rid : Str) (query : List Str)
        (lang toL : FT.Language) (r : FT.CaiyunRequest),
      FT.caiyunBuildRequest toC rid query (some lang) toL = Except.ok r →
      r.detect = none ∧ ∃ fc tc, toC lang = some fc ∧ toC toL = some tc
        ∧ r.trans_type = fc ++ ('2' :: tc))
    ∧ (∀ (toC : FT.Language → Option Str) (rid : Str) (query : List Str)
        (toL : FT.Language) (r : FT.CaiyunRequest),
      FT.caiyunBuildRequest toC rid query none toL = Except.ok r →
      r.detect = some true ∧ ∃ tc, toC toL = some tc
        ∧ r.trans_type = ("auto".toList) ++ ('2' :: tc)) := by
  refine ⟨?_, ?_, ?_, ?_, ?_, ?_, ?_, ?_, ?_, ?_, ?_⟩
  · intro toB fromB appId key q lang toL tc resp htc hlang
    unfold FT.baiduTranslate FT.baiduBuildForm
    simp only [FT.okOr, htc, hlang, Except.bind, Bind.bind]
  · intro toY appKey appSecret curtime salt query lang toL respT tb htr hlang
    unfold FT.youdaoTranslateVec FT.youdaoBuildForm
    dsimp only
    rw [htr]
    simp only [FT.okOr, hlang, Except.bind, Bind.bind]
  · intro toM q lang toL resp hlim hlang
    unfold FT.mymemoryTranslate FT.mymemoryBuildRequest FT.input_limit_checker
    rw [if_neg (by omega)]
    simp only [FT.okOr, hlang, Except.bind, Bind.bind]
  · intro toMS q lang toL resp hlim hlang
    unfold FT.alibabaTranslate FT.alibabaBuildRequest FT.input_limit_checker
    rw [if_neg (by omega)]
    simp only [FT.okOr, hlang, Except.bind, Bind.bind]
  · intro toC rid query lang toL respTarget hlang
    unfold FT.caiyunTranslateVec FT.caiyunBuildRequest
    simp only [FT.okOr, hlang, Except.bind, Bind.bind]
  · intro toB appId key q lang toL f h
    unfold FT.baiduBuildForm at h
    cases htc : toB toL with
    | none =>
      rw [htc] at h
      simp only [FT.okOr, Except.bind, Bind.bind] at h
      exact Except.noConfusion h
    | some tc =>
      rw [htc] at h
      simp only [FT.okOr, Except.bind, Bind.bind] at h
      cases hfc : toB lang with
      | none =>
        rw [hfc] at h
        simp only [Except.bind, Bind.bind] at h
        exact Except.noConfusion h
      | some fc =>
        rw [hfc] at h
        simp only [Except.bind, Bind.bind, Except.ok.injEq] at h
        subst h
        rfl
  · intro toB appId key q toL f h
    unfold FT.baiduBuildForm at h
    cases htc : toB toL with
    | none =>
      rw [htc] at h
      simp only [FT.okOr, Except.bind, Bind.bind] at h
      exact Except.noConfusion h
    | some tc =>
      rw [htc] at h
      simp only [FT.okOr, Except.bind, Bind.bind, Except.ok.injEq] at h
      subst h
      rfl
  · intro toM q lang toL r h
    unfold FT.mymemoryBuildRequest FT.input_limit_checker at h
    by_cases hq : rustLen q > 500
    · rw [if_pos hq] at h
      simp only [Except.bind, Bind.bind] at h
      exact Except.noConfusion h
    · rw [if_neg hq] at h
      simp only [FT.okOr, Except.bind, Bind.bind] at h
      cases hfc : toM lang with
      | none =>
        rw [hfc] at h
        simp only [Except.bind, Bind.bind] at h
        exact Except.noConfusion h
      | some fc =>
        rw [hfc] at h
        cases htc : toM toL with
        | none =>
          rw [htc] at h
          simp only [Except.bind, Bind.bind] at h
          exact Except.noConfusion h
        | some tc =>
          rw [htc] at h
          simp only [Except.bind, Bind.bind, Except.ok.injEq] at h
          subst h
          rfl
  · intro toM q toL r h
    unfold FT.mymemoryBuildRequest FT.input_limit_checker at h
    by_cases hq : rustLen q > 500
    · rw [if_pos hq] at h
      simp only [Except.bind, Bind.bind] at h
      exact Except.noConfusion h
    · rw [if_neg hq] at h
      simp only [FT.okOr, Except.bind, Bind.bind] at h
      cases htc : toM toL with
      | none =>
        rw [htc] at h
        simp only [Except.bind, Bind.bind] at h
        exact Except.noConfusion h
      | some tc =>
        rw [htc] at h
        simp only [Except.bind, Bind.bind, Except.ok.injEq] at h
        subst h
        rfl
  · intro toC rid query lang toL r h
    unfold FT.caiyunBuildRequest at h
    simp only [Except.bind, Bind.bind] at h
    cases hfc : toC lang with
    | none =>
      rw [hfc] at h
      simp only [FT.okOr, Except.bind, Bind.bind] at h
      exact Except.noConfusion h
    | some fc =>
      rw [hfc] at h
      simp only [FT.okOr, Except.bind, Bind.bind] at h
      cases htc : toC toL with
      | none =>
        rw [htc] at h
        simp only [Except.bind, Bind.bind] at h
        exact Except.noConfusion h
      | some tc =>
        rw [htc] at h
        simp only [Except.bind, Bind.bind, Except.ok.injEq] at h
        subst h
        exact ⟨rfl, fc, tc, rfl, rfl, rfl⟩
  · intro toC rid query toL r h
    unfold FT.caiyunBuildRequest at h
    simp only [Except.bind, Bind.bind] at h
    cases htc : toC toL with
    | none =>
      rw [htc] at h
      simp only [FT.okOr, Except.bind, Bind.bind] at h
      exact Except.noConfusion h
    | some tc =>
      rw [htc] at h
      simp only [FT.okOr, Except.bind, Bind.bind, Except.ok.injEq] at h
      subst h
      exact ⟨rfl, tc, rfl, rfl⟩

/-- C6 witness: with a table supporting only English, an explicit Chinese
source is a hard `UnknownLanguage` error on all five adapters, and the
builders produce the mapped code (explicit source) or the auto-detect value
(no source). -/
theorem unmappable_explicit_source_is_hard_error_witness :
    FT.baiduTranslate FT.stubMapEnOnly (FT.stubFromConst FT.Language.English)
        ("id".toList) ("key".toList) ("hi".toList) (some FT.Language.Chinese)
        FT.Language.English (FT.BaiduResponse.ok ("en".toList) [])
      = Except.error (FT.TranslatorError.unknownLanguage FT.Language.Chinese)
    ∧ FT.youdaoTranslateVec FT.stubMapEnOnly ("k".toList) ("sec".toList) 0
        ("salt".toList) [("hi".toList)] (some FT.Language.Chinese)
        FT.Language.English []
      = FT.RunResult.err (FT.TranslatorError.unknownLanguage FT.Language.Chinese)
    ∧ FT.mymemoryTranslate FT.stubMapEnOnly ("hi".toList)
        (some FT.Language.Chinese) FT.Language.English
        { status := 200, field := FT.JValue.null }
      = Except.error (FT.TranslatorError.unknownLanguage FT.Language.Chinese)
    ∧ FT.alibabaTranslate FT.stubMapEnOnly ("hi".toList)
        (some FT.Language.Chinese) FT.Language.English
        { status := 200, field := FT.JValue.null }
      = Except.error (FT.TranslatorError.unknownLanguage FT.Language.Chinese)
    ∧ FT.caiyunTranslateVec FT.stubMapEnOnly ("rid".toList) [("hi".toList)]
        (some FT.Language.Chinese) FT.Language.English (some [])
      = Except.error (FT.TranslatorError.unknownLanguage FT.Language.Chinese)
    ∧ FT.stubMapEnOnly FT.Language.English
      = some (FT.Form.new ("id".toList) ("hi".toList) ("0".toList)
          ("key".toList) ("en".toList) ("en".toList)).fromc
    ∧ (FT.Form.new ("id".toList) ("hi".toList) ("0".toList) ("key".toList)
        ("auto".toList) ("en".toList)).fromc = ("auto".toList) :=
  ⟨unmappable_explicit_source_is_hard_error.1 FT.stubMapEnOnly
      (FT.stubFromConst FT.Language.English) ("id".toList) ("key".toList)
      ("hi".toList) FT.Language.Chinese FT.Language.English ("en".toList)
      (FT.BaiduResponse.ok ("en".toList) []) (by decide) (by decide),
   unmappable_explicit_source_is_hard_error.2.1 FT.stubMapEnOnly ("k".toList)
      ("sec".toList) 0 ("salt".toList) [("hi".toList)] FT.Language.Chinese
      FT.Language.English [] (utf8 ("hi".toList)) (by decide) (by decide),
   unmappable_explicit_source_is_hard_error.2.2.1 FT.stubMapEnOnly
      ("hi".toList) FT.Language.Chinese FT.Language.English
      { status := 200, field := FT.JValue.null } (by decide) (by decide),
   unmappable_explicit_source_is_hard_error.2.2.2.1 FT.stubMapEnOnly
      ("hi".toList) FT.Language.Chinese FT.Language.English
      { status := 200, field := FT.JValue.null } (by decide) (by decide),
   unmappable_explicit_source_is_hard_error.2.2.2.2.1 FT.stubMapEnOnly
      ("rid".toList) [("hi".toList)] FT.Language.Chinese FT.Language.English
      (some []) (by decide),
   unmappable_explicit_source_is_hard_error.2.2.2.2.2.1 FT.stubMapEnOnly
      ("id".toList) ("key".toList) ("hi".toList) FT.Language.English
      FT.Language.English
      (FT.Form.new ("id".toList) ("hi".toList) ("0".toList) ("key".toList)
        ("en".toList) ("en".toList)) (by decide),
   unmappable_explicit_source_is_hard_error.2.2.2.2.2.2.1 FT.stubMapEnOnly
      ("id".toList) ("key".toList) ("hi".toList) FT.Language.English
      (FT.Form.new ("id".toList) ("hi".toList) ("0".toList) ("key".toList)
        ("auto".toList) ("en".toList)) (by decide)⟩

/-- C6 counterexample: the claim does not hold of the Youdao adapter on every
input.  The signing-string truncation runs before the source-language
mapping, and on the explicit 20-character query 9 x 'a' + 'é' + 10 x 'a'
(21 UTF-8 bytes, with byte 10 inside the two-byte 'é') the byte slice
`&s[..10]` panics — so `translate_vec` with an explicitly supplied
unmappable source language panics instead of failing with
`UnknownLanguage`. -/
theorem youdao_truncate_panic_preempts_unknown_language :
    FT.stubMapEnOnly FT.Language.Chinese = none
    ∧ FT.youdaoTranslateVec FT.stubMapEnOnly ("k".toList) ("sec".toList) 0
        ("salt".toList) [("aaaaaaaaa\u00E9aaaaaaaaaa".toList)]
        (some FT.Language.Chinese) FT.Language.English []
      = FT.RunResult.panic
    ∧ (FT.RunResult.panic : FT.RunResult FT.TranslationListOutput)
      ≠ FT.RunResult.err
          (FT.TranslatorError.unknownLanguage FT.Language.Chinese) :=
  ⟨by decide, by decide, by decide⟩

/- ### C1: batch translation length/order -/

